import Mathlib

/-!
Verification of the pyllow request-replay utility: a shallow embedding of
`src/pyllow/token.py`, `src/pyllow/request.py` and `src/pyllow/__init__.py`
(the `Token` class, the transport interface and the `Pyllow` orchestrator),
together with theorems settling the specification claims.

Modelling conventions:
* Python JSON values are the inductive `Json`; a Python `dict` is an
  association list; `dict.get(key)` returns `Json.null` for a missing key,
  matching Python's `None` (which `json.loads` also uses for JSON `null`).
* Python values of type `str | None` (e.g. `Token.access_token` after a
  refresh, since `_extract_value` returns `Optional[str]`) are `Option String`;
  Python truthiness of such a value is `pyTruthy` (false for `None` and `""`),
  and f-string interpolation of such a value is `pyStr` (`None` prints "None").
* The HTTP transport (`requests.request` behind `make_request`) is an
  oracle supplied as input: each orchestrator dispatch consumes a
  `DispatchEnv` giving the outcome of the (up to) two transport calls and of
  the token-refresh exchange; a raised `requests.RequestException` is the
  `.err` / `.error` case.
* Mutation is explicit state passing: `Token.refresh_access_token` returns
  the post-state `Token` together with the normal result or the exception,
  and the orchestrator methods map `PyState` to `PyState`.  The ghost fields
  `trace` (every orchestrator-level `make_request` call), `processed` (every
  response reaching `_process_response`) and `errorsLogged` (every
  `logging.error` at the dispatch boundary) observe behaviour the claims
  speak about; no source logic reads them.
-/

/-- A JSON value as produced by `response.json()` in Python. -/
inductive Json where
  | null : Json
  | bool (b : Bool) : Json
  | num (n : Int) : Json
  | str (s : String) : Json
  | arr (elems : List Json) : Json
  | obj (fields : List (String × Json)) : Json

/-- Lookup of a key in a JSON object (association list), first match. -/
def jlookup : List (String × Json) → String → Option Json
  | [], _ => none
  | (k', v) :: rest, k => if k' == k then some v else jlookup rest k

/-- Python `str.upper()`, restricted to ASCII as used for HTTP methods. -/
def pyUpper (s : String) : String := ⟨s.data.map Char.toUpper⟩

/-- Python `data.get(key)`: a missing key yields `None`, i.e. `Json.null`. -/
def jget (kvs : List (String × Json)) (k : String) : Json :=
  (jlookup kvs k).getD .null

/-- Truthiness of a Python `str | None` value: `None` and `""` are falsy. -/
def pyTruthy : Option String → Bool
  | none => false
  | some s => !(s == "")

/-- f-string interpolation of a Python `str | None` value. -/
def pyStr : Option String → String
  | none => "None"
  | some s => s

/-- The `Token` object of `src/pyllow/token.py`.  `access_token` is
`Option String` because `refresh_access_token` assigns it the
`Optional[str]` result of `_extract_value`. -/
structure Token where
  token_endpoint : String
  client_id : String
  client_secret : String
  refresh_token : String
  access_token : Option String
  access_token_path : List String
  refresh_token_path : List String

/-- `Token.__init__`: `access_token` starts as the empty string; the path
arguments default to `["access_token"]` and `["refresh_token"]` at call
sites in Python. -/
def Token.init (token_endpoint client_secret refresh_token client_id : String)
    (access_token_path refresh_token_path : List String) : Token :=
  { token_endpoint := token_endpoint
    client_id := client_id
    client_secret := client_secret
    refresh_token := refresh_token
    access_token := some ""
    access_token_path := access_token_path
    refresh_token_path := refresh_token_path }

/-- `Token._extract_value`: walk `path` key by key; a non-dict intermediate
value aborts with `None`; the final value is returned only if it is a
string. -/
def Token.extract_value : Json → List String → Option String
  | data, [] => match data with
    | .str s => some s
    | _ => none
  | data, key :: rest => match data with
    | .obj kvs => Token.extract_value (jget kvs key) rest
    | _ => none

/-- The body `Token.refresh_access_token` POSTs to the token endpoint. -/
def Token.refreshPayload (tok : Token) : List (String × Json) :=
  [("grant_type", .str "refresh_token"),
   ("refresh_token", .str tok.refresh_token),
   ("client_id", .str tok.client_id),
   ("client_secret", .str tok.client_secret)]

/-- The outcome of the transport exchange inside `refresh_access_token`:
a status code and the result of `response.json()` (which raises on an
unparseable body). -/
structure RefreshHttp where
  status_code : Nat
  jsonBody : Except Unit Json

/-- `Token.refresh_access_token`, the transport outcome passed as input
(`.error ()` is a raised transport exception).  Returns the post-state of
the token and either the returned access token or the raised exception.
Every `raise` in the source occurs before any assignment to `self`, which
is why each error branch returns the incoming token unchanged. -/
def Token.refresh_access_token (tok : Token) (tr : Except Unit RefreshHttp) :
    Token × Except Unit (Option String) :=
  match tr with
  | .error _ => (tok, .error ())
  | .ok resp =>
    if resp.status_code == 200 then
      match resp.jsonBody with
      | .error _ => (tok, .error ())
      | .ok token_data =>
        let newAccess := Token.extract_value token_data tok.access_token_path
        let newRefresh := Token.extract_value token_data tok.refresh_token_path
        let tok' : Token :=
          { tok with
            access_token := newAccess
            refresh_token :=
              match newRefresh with
              | some s => if s == "" then tok.refresh_token else s
              | none => tok.refresh_token }
        (tok', .ok newAccess)
    else (tok, .error ())

/-- The path relation specified for extraction: every intermediate value is
an object containing the key, and the final value is the string `s`. -/
inductive PathLeads : Json → List String → String → Prop where
  | done (s : String) : PathLeads (.str s) [] s
  | step (kvs : List (String × Json)) (k : String) (v : Json)
      (rest : List String) (s : String) :
      jlookup kvs k = some v → PathLeads v rest s →
      PathLeads (.obj kvs) (k :: rest) s

/-- A Python payload dict (body of a POST request). -/
abbrev Payload := List (String × Json)

/-- A transport response as seen by the orchestrator. -/
structure Response where
  status_code : Nat
  text : String

/-- Outcome of one `make_request` call: a response, or a raised
`requests.RequestException`. -/
inductive TransportResult where
  | ok (resp : Response)
  | err

/-- A condition dictionary from the `conditions` constructor argument.
`none` models an absent key (Python `"status_codes" in condition` false). -/
structure Condition where
  status_codes : Option (List Nat)
  messages : Option (List String)
  output_file : Option String

/-- One entry of `self.condition_results`. -/
structure ConditionResult where
  condition : Condition
  results : List String

/-- Python's `startswith` on character lists (helper for substring). -/
def startsWithL : List Char → List Char → Bool
  | _, [] => true
  | [], _ :: _ => false
  | c :: cs, d :: ds => c == d && startsWithL cs ds

/-- Occurrence of `ns` as a contiguous subsequence of `hs`. -/
def containsSubL : List Char → List Char → Bool
  | [], ns => ns.isEmpty
  | h :: t, ns => startsWithL (h :: t) ns || containsSubL t ns

/-- Python's `needle in haystack` for strings (substring containment). -/
def strContainsSub (haystack needle : String) : Bool :=
  containsSubL haystack.data needle.data

/-- The record of one orchestrator-level `make_request` call. -/
structure ReqEvent where
  method : String
  url : String
  headers : List (String × String)
  data : Option Payload
  params : Option Payload
  verify_ssl : Bool

/-- Python dict assignment `headers[k] = v` on an association list. -/
def setHeader : List (String × String) → String → String → List (String × String)
  | [], k, v => [(k, v)]
  | (k', v') :: rest, k, v =>
    if k' == k then (k, v) :: rest else (k', v') :: setHeader rest k v

/-- Python dict lookup `headers.get(k)`. -/
def getHeader : List (String × String) → String → Option String
  | [], _ => none
  | (k', v') :: rest, k => if k' == k then some v' else getHeader rest k

/-- The mutable state of a `Pyllow` instance, plus the ghost observation
fields `trace`, `processed` and `errorsLogged`. -/
structure PyState where
  method : String
  url : String
  headers : List (String × String)
  payloads : List Payload
  params : Option Payload
  token : Option Token
  save_output : Bool
  output_file : String
  conditions : List Condition
  sleep_time : ℚ
  verify_ssl : Bool
  loops : Nat
  append_logs : Bool
  results : List String
  total_requests : Nat
  completed_requests : Nat
  condition_results : List ConditionResult
  trace : List ReqEvent
  processed : List Response
  errorsLogged : Nat

/-- `payloads or [{}]` from `Pyllow.__init__`: a `None` or empty payload
list is replaced by a single empty dict. -/
def initPayloads (payloads : Option (List Payload)) : List Payload :=
  match payloads with
  | none => [[]]
  | some l => if l.isEmpty then [[]] else l

/-- `Pyllow.__init__`.  `conditions or []` replaces a `None` condition
list with the empty list. -/
def Pyllow.init (method url : String) (headers : List (String × String))
    (payloads : Option (List Payload))
    (params : Option Payload)
    (token : Option Token)
    (save_output : Bool)
    (output_file : String)
    (conditions : Option (List Condition))
    (sleep_time : ℚ)
    (verify_ssl : Bool)
    (loops : Nat)
    (append_logs : Bool) : PyState :=
  let ps : List Payload := initPayloads payloads
  let conds : List Condition := (conditions.getD [])
  { method := method
    url := url
    headers := headers
    payloads := ps
    params := params
    token := token
    save_output := save_output
    output_file := output_file
    conditions := conds
    sleep_time := sleep_time
    verify_ssl := verify_ssl
    loops := loops
    append_logs := append_logs
    results := []
    total_requests :=
      if pyUpper method == "POST" then ps.length * loops else loops
    completed_requests := 0
    condition_results := conds.map (fun c => ⟨c, []⟩)
    trace := []
    processed := []
    errorsLogged := 0 }

/-- The arguments `_make_request` passes to `make_request`. -/
def mkEvent (st : PyState) (payload : Payload) : ReqEvent :=
  { method := st.method
    url := st.url
    headers := st.headers
    data := if pyUpper st.method == "POST" then some payload else none
    params := if pyUpper st.method == "GET" then st.params else none
    verify_ssl := st.verify_ssl }

/-- Step 1 of `_make_request`: inject the Authorization header when a token
is present and its `access_token` is truthy. -/
def applyAuthHeader (st : PyState) : PyState :=
  match st.token with
  | some tok =>
    if pyTruthy tok.access_token then
      { st with headers :=
          setHeader st.headers "Authorization" ("Bearer " ++ pyStr tok.access_token) }
    else st
  | none => st

/-- The condition check of `_process_response`: both clauses AND-ed, a
missing or empty (falsy) clause imposing no constraint. -/
def conditionMatches (c : Condition) (status : Nat) (content : String) : Bool :=
  (match c.status_codes with
   | some scs => scs.isEmpty || scs.contains status
   | none => true) &&
  (match c.messages with
   | some ms => ms.isEmpty || ms.any (fun m => strContainsSub content m)
   | none => true)

/-- `Pyllow._process_response`. -/
def process_response (st : PyState) (resp : Response) : PyState :=
  let content := resp.text
  let st := { st with processed := st.processed ++ [resp] }
  let st := if st.save_output then { st with results := st.results ++ [content] } else st
  { st with condition_results :=
      st.condition_results.map (fun cr =>
        if conditionMatches cr.condition resp.status_code content then
          { cr with results := cr.results ++ [content] }
        else cr) }

/-- The external outcomes one dispatch may consume: the first transport
call, the token-refresh exchange, and the retry transport call. -/
structure DispatchEnv where
  first : TransportResult
  refresh : Except Unit RefreshHttp
  second : TransportResult

/-- `Pyllow._make_request`: auth header injection, first send, the
401-with-token refresh-and-retry branch, response processing; any raised
exception is caught at the end (landing in the `errorsLogged` branches,
with all mutations made so far kept). -/
def dispatchOne (st₀ : PyState) (payload : Payload) (env : DispatchEnv) : PyState :=
  let st := applyAuthHeader st₀
  let st := { st with trace := st.trace ++ [mkEvent st payload] }
  match env.first with
  | .err => { st with errorsLogged := st.errorsLogged + 1 }
  | .ok resp =>
    if resp.status_code == 401 then
      match st.token with
      | some tok =>
        let pr := tok.refresh_access_token env.refresh
        let st := { st with token := some pr.1 }
        match pr.2 with
        | .error _ => { st with errorsLogged := st.errorsLogged + 1 }
        | .ok _ =>
          let v := "Bearer " ++ pyStr pr.1.access_token
          let st := { st with headers := setHeader st.headers "Authorization" v }
          let st := { st with trace := st.trace ++ [mkEvent st payload] }
          match env.second with
          | .err => { st with errorsLogged := st.errorsLogged + 1 }
          | .ok resp2 => process_response st resp2
      | none => process_response st resp
    else process_response st resp

/-- One iteration of the inner loop of `run`: `_make_request` then the
`completed_requests` increment (`_log_progress` and `sleep` do not change
state). -/
def stepDispatch (envs : Nat → DispatchEnv) (st : PyState) (payload : Payload) : PyState :=
  let st := dispatchOne st payload (envs st.completed_requests)
  { st with completed_requests := st.completed_requests + 1 }

/-- The body of one outer loop iteration of `run`. -/
def runLoopBody (envs : Nat → DispatchEnv) (st : PyState) : PyState :=
  if pyUpper st.method == "POST" then
    st.payloads.foldl (stepDispatch envs) st
  else
    stepDispatch envs st []

/-- `Pyllow.run` up to the final file persistence (which only performs
I/O and changes no orchestrator state). -/
def run (st : PyState) (envs : Nat → DispatchEnv) : PyState :=
  (List.range st.loops).foldl (fun s _ => runLoopBody envs s) st

/-- The progress percentage computed by `_log_progress`. -/
def progress (st : PyState) : ℚ :=
  ((st.completed_requests : ℚ) / (st.total_requests : ℚ)) * 100

/-- Scenario token: fresh token as built by `Token.__init__` with the
default extraction paths. -/
def tokFresh : Token :=
  Token.init "https://token.endpoint" "secret" "refresh0" "client"
    ["access_token"] ["refresh_token"]

/-- Scenario token holding a previously valid access token. -/
def tokValid : Token := { tokFresh with access_token := some "valid" }

/-- The token after the scenario refresh: only `access_token` replaced. -/
def tokRefreshed : Token := { tokFresh with access_token := some "newtok" }

/-- Dispatch environment: first response 401, refresh exchange succeeding
with a JSON body carrying a new access token, retry answered with another
401. -/
def env401 : DispatchEnv :=
  ⟨.ok ⟨401, "unauthorized"⟩,
   .ok ⟨200, .ok (.obj [("access_token", .str "newtok")])⟩,
   .ok ⟨401, "again"⟩⟩

/-- Orchestrator state for the 401-retry scenario (GET, token present). -/
def st401 : PyState :=
  Pyllow.init "GET" "http://u" [] none none (some tokFresh) false
    "output.txt" none 0 true 1 false

/-- First payload of the POST ordering scenario. -/
def pl1 : Payload := [("x", Json.num 1)]

/-- Second payload of the POST ordering scenario. -/
def pl2 : Payload := [("x", Json.num 2)]

/-- Transport succeeding with status 200 and body "ok" on every call. -/
def envsAllOk : Nat → DispatchEnv :=
  fun _ => ⟨.ok ⟨200, "ok"⟩, .error (), .ok ⟨200, "ok"⟩⟩

/-- Orchestrator state of the POST ordering scenario: payloads
`[pl1, pl2]`, two loops. -/
def stPost2 : PyState :=
  Pyllow.init "POST" "http://u" [] (some [pl1, pl2]) none none false
    "output.txt" none 0 true 2 false

/-- Transport failing (raising) on every call. -/
def envsAllFail : Nat → DispatchEnv := fun _ => ⟨.err, .error (), .err⟩

/-- POST state with two loops over one payload, for the all-failures
scenario. -/
def stFailRun : PyState :=
  Pyllow.init "POST" "http://u" [] (some [pl1]) none none false
    "output.txt" none 0 true 2 false

/-- POST state with no payloads supplied, no token, three loops. -/
def stNoPayloads : PyState :=
  Pyllow.init "POST" "http://u" [] none none none false
    "output.txt" none 0 true 3 false

/-- Condition of the matcher scenario: status 200 and substring "ok". -/
def condOk : Condition := ⟨some [200], some ["ok"], some "cond.txt"⟩

/-- No `PathLeads` chain starts at JSON null. -/
theorem pathLeads_null (path : List String) (s : String) :
    ¬ PathLeads .null path s := by
  intro h
  cases h

/-- `_extract_value` yields `s` exactly when the key path leads through
objects to the string `s`. -/
theorem extract_value_iff_pathLeads (path : List String) :
    ∀ (d : Json) (s : String),
      Token.extract_value d path = some s ↔ PathLeads d path s := by
  induction path with
  | nil =>
    intro d s
    constructor
    · intro h
      cases d with
      | str s' =>
        simp [Token.extract_value] at h
        subst h
        exact PathLeads.done _
      | null => simp [Token.extract_value] at h
      | bool b => simp [Token.extract_value] at h
      | num n => simp [Token.extract_value] at h
      | arr l => simp [Token.extract_value] at h
      | obj kvs => simp [Token.extract_value] at h
    · intro h
      cases h
      simp [Token.extract_value]
  | cons k rest ih =>
    intro d s
    constructor
    · intro h
      cases d with
      | obj kvs =>
        simp only [Token.extract_value] at h
        cases hlk : jlookup kvs k with
        | none =>
          have hg : jget kvs k = .null := by simp [jget, hlk]
          rw [hg] at h
          exact absurd ((ih _ _).mp h) (pathLeads_null rest s)
        | some v =>
          have hg : jget kvs k = v := by simp [jget, hlk]
          rw [hg] at h
          exact PathLeads.step kvs k v rest s hlk ((ih _ _).mp h)
      | str s' => simp [Token.extract_value] at h
      | null => simp [Token.extract_value] at h
      | bool b => simp [Token.extract_value] at h
      | num n => simp [Token.extract_value] at h
      | arr l => simp [Token.extract_value] at h
    · intro h
      cases h with
      | step kvs k2 v rest2 s2 hlk hpl =>
        have hg : jget kvs k = v := by simp [jget, hlk]
        simp only [Token.extract_value, hg]
        exact (ih _ _).mpr hpl

/-- C8: nested extraction follows the path key by key and yields the final
value exactly when every intermediate value is a mapping containing the
key and the final value is a string; otherwise it yields no value.  In
particular, on the JSON object with "a" mapped to an object with "b"
mapped to "tok123", the path a-b yields "tok123" and the path a-c, or a
non-dict intermediate, yields no value. -/
theorem pyllow_C8 :
    (∀ (d : Json) (path : List String) (s : String),
        Token.extract_value d path = some s ↔ PathLeads d path s)
    ∧ Token.extract_value (.obj [("a", .obj [("b", .str "tok123")])])
        ["a", "b"] = some "tok123"
    ∧ Token.extract_value (.obj [("a", .obj [("b", .str "tok123")])])
        ["a", "c"] = none
    ∧ Token.extract_value (.obj [("a", .str "x")]) ["a", "b"] = none :=
  ⟨fun d path s => extract_value_iff_pathLeads path d s, rfl, rfl, rfl⟩

/-- C2: if the transport request fails or the response status is not 200,
`refresh_access_token` fails with an error and the token state is
unchanged: `access_token` and `refresh_token` keep their prior values. -/
theorem pyllow_C2 (tok : Token) (tr : Except Unit RefreshHttp)
    (h : tr = .error () ∨ ∃ resp, tr = .ok resp ∧ resp.status_code ≠ 200) :
    (tok.refresh_access_token tr).2 = .error ()
    ∧ ((tok.refresh_access_token tr).1).access_token = tok.access_token
    ∧ ((tok.refresh_access_token tr).1).refresh_token = tok.refresh_token := by
  rcases h with h | ⟨resp, hr, hs⟩
  · subst h
    exact ⟨rfl, rfl, rfl⟩
  · subst hr
    have hb : (resp.status_code == 200) = false := beq_eq_false_iff_ne.mpr hs
    simp [Token.refresh_access_token, hb]

/-- C2 witness: a 500 response leaves a concrete token unchanged and the
call fails. -/
theorem pyllow_C2_witness :
    ((Except.ok ⟨500, .ok .null⟩ : Except Unit RefreshHttp) = .error ()
      ∨ ∃ resp, (Except.ok ⟨500, .ok .null⟩ : Except Unit RefreshHttp) = .ok resp
          ∧ resp.status_code ≠ 200)
    ∧ ((tokValid.refresh_access_token (.ok ⟨500, .ok .null⟩)).2 = .error ()
      ∧ ((tokValid.refresh_access_token (.ok ⟨500, .ok .null⟩)).1).access_token
          = tokValid.access_token
      ∧ ((tokValid.refresh_access_token (.ok ⟨500, .ok .null⟩)).1).refresh_token
          = tokValid.refresh_token) :=
  ⟨Or.inr ⟨⟨500, .ok .null⟩, rfl, by decide⟩,
   pyllow_C2 tokValid (.ok ⟨500, .ok .null⟩)
     (Or.inr ⟨⟨500, .ok .null⟩, rfl, by decide⟩)⟩

/-- C3: on a 200 refresh response, the stored `access_token` is replaced
unconditionally by the value extracted at `access_token_path`, and that
same value is returned — even when extraction yields no value. -/
theorem pyllow_C3 (tok : Token) (resp : RefreshHttp) (d : Json)
    (h200 : resp.status_code = 200) (hjson : resp.jsonBody = .ok d) :
    ((tok.refresh_access_token (.ok resp)).1).access_token
      = Token.extract_value d tok.access_token_path
    ∧ (tok.refresh_access_token (.ok resp)).2
      = .ok (Token.extract_value d tok.access_token_path) := by
  simp [Token.refresh_access_token, h200, hjson]

/-- C3 witness: a 200 response whose JSON body is an empty object
overwrites a previously valid access token with no value. -/
theorem pyllow_C3_witness :
    (200 : Nat) = 200
    ∧ (Except.ok (Json.obj []) : Except Unit Json) = .ok (.obj [])
    ∧ (((tokValid.refresh_access_token
          (.ok ⟨200, .ok (.obj [])⟩)).1).access_token
        = Token.extract_value (.obj []) tokValid.access_token_path
      ∧ (tokValid.refresh_access_token (.ok ⟨200, .ok (.obj [])⟩)).2
        = .ok (Token.extract_value (.obj []) tokValid.access_token_path))
    ∧ tokValid.access_token = some "valid"
    ∧ Token.extract_value (.obj []) tokValid.access_token_path = none :=
  ⟨rfl, rfl, pyllow_C3 tokValid ⟨200, .ok (.obj [])⟩ (.obj []) rfl rfl, rfl, rfl⟩

/-- C4: on a 200 refresh response, the stored `refresh_token` is replaced
only when extraction at `refresh_token_path` yields a non-empty string;
otherwise it is unchanged. -/
theorem pyllow_C4 (tok : Token) (resp : RefreshHttp) (d : Json)
    (h200 : resp.status_code = 200) (hjson : resp.jsonBody = .ok d) :
    (∀ s, Token.extract_value d tok.refresh_token_path = some s → s ≠ "" →
        ((tok.refresh_access_token (.ok resp)).1).refresh_token = s)
    ∧ ((Token.extract_value d tok.refresh_token_path = none
        ∨ Token.extract_value d tok.refresh_token_path = some "") →
        ((tok.refresh_access_token (.ok resp)).1).refresh_token
          = tok.refresh_token) := by
  constructor
  · intro s hs hne
    simp [Token.refresh_access_token, h200, hjson, hs, hne]
  · intro h
    rcases h with h | h <;> simp [Token.refresh_access_token, h200, hjson, h]

/-- C4 witness: a refresh response carrying a non-empty refresh token
replaces the stored one, and an empty-object response leaves it alone. -/
theorem pyllow_C4_witness :
    (200 : Nat) = 200
    ∧ Token.extract_value (.obj [("refresh_token", .str "r2")])
        tokValid.refresh_token_path = some "r2"
    ∧ ((tokValid.refresh_access_token
          (.ok ⟨200, .ok (.obj [("refresh_token", .str "r2")])⟩)).1).refresh_token
        = "r2"
    ∧ ((tokValid.refresh_access_token
          (.ok ⟨200, .ok (.obj [])⟩)).1).refresh_token
        = tokValid.refresh_token :=
  ⟨rfl, rfl,
   (pyllow_C4 tokValid ⟨200, .ok (.obj [("refresh_token", .str "r2")])⟩
       (.obj [("refresh_token", .str "r2")]) rfl rfl).1 "r2" rfl (by decide),
   (pyllow_C4 tokValid ⟨200, .ok (.obj [])⟩ (.obj []) rfl rfl).2 (Or.inl rfl)⟩

theorem applyAuthHeader_shape (st : PyState) :
    ∃ hs, applyAuthHeader st = { st with headers := hs } := by
  unfold applyAuthHeader
  split
  · split
    · exact ⟨_, rfl⟩
    · exact ⟨st.headers, rfl⟩
  · exact ⟨st.headers, rfl⟩

theorem process_response_eq (st : PyState) (r : Response) :
    process_response st r =
      { st with
        processed := st.processed ++ [r],
        results := if st.save_output then st.results ++ [r.text] else st.results,
        condition_results := st.condition_results.map (fun cr =>
          if conditionMatches cr.condition r.status_code r.text then
            { cr with results := cr.results ++ [r.text] } else cr) } := by
  unfold process_response
  cases hso : st.save_output <;> simp [hso]

theorem dispatchOne_shape (st : PyState) (p : Payload) (env : DispatchEnv) :
    ∃ hs tk tr pc rs cr el, dispatchOne st p env =
      { st with headers := hs, token := tk, trace := tr, processed := pc,
                results := rs, condition_results := cr, errorsLogged := el } := by
  obtain ⟨hs0, hA⟩ := applyAuthHeader_shape st
  unfold dispatchOne
  rw [hA]
  cases env.first with
  | err => exact ⟨_, _, _, _, _, _, _, rfl⟩
  | ok resp =>
    dsimp only
    split
    · split
      · split
        · exact ⟨_, _, _, _, _, _, _, rfl⟩
        · cases env.second with
          | err => exact ⟨_, _, _, _, _, _, _, rfl⟩
          | ok r2 =>
            dsimp only
            rw [process_response_eq]
            exact ⟨_, _, _, _, _, _, _, rfl⟩
      · rw [process_response_eq]; exact ⟨_, _, _, _, _, _, _, rfl⟩
    · rw [process_response_eq]; exact ⟨_, _, _, _, _, _, _, rfl⟩

theorem stepDispatch_config (envs : Nat → DispatchEnv) (st : PyState) (p : Payload) :
    (stepDispatch envs st p).method = st.method
    ∧ (stepDispatch envs st p).payloads = st.payloads
    ∧ (stepDispatch envs st p).total_requests = st.total_requests
    ∧ (stepDispatch envs st p).loops = st.loops
    ∧ (stepDispatch envs st p).completed_requests = st.completed_requests + 1 := by
  obtain ⟨hs, tk, tr, pc, rs, cr, el, hD⟩ :=
    dispatchOne_shape st p (envs st.completed_requests)
  unfold stepDispatch
  rw [hD]
  exact ⟨rfl, rfl, rfl, rfl, rfl⟩

theorem foldPayloads_config (envs : Nat → DispatchEnv) (ps : List Payload) (st : PyState) :
    ((ps.foldl (stepDispatch envs) st).method = st.method)
    ∧ ((ps.foldl (stepDispatch envs) st).payloads = st.payloads)
    ∧ ((ps.foldl (stepDispatch envs) st).total_requests = st.total_requests)
    ∧ ((ps.foldl (stepDispatch envs) st).loops = st.loops)
    ∧ ((ps.foldl (stepDispatch envs) st).completed_requests
        = st.completed_requests + ps.length) := by
  induction ps generalizing st with
  | nil => simp
  | cons p ps ih =>
    simp only [List.foldl_cons]
    obtain ⟨h1, h2, h3, h4, h5⟩ := ih (stepDispatch envs st p)
    obtain ⟨g1, g2, g3, g4, g5⟩ := stepDispatch_config envs st p
    refine ⟨h1.trans g1, h2.trans g2, h3.trans g3, h4.trans g4, ?_⟩
    rw [h5, g5, List.length_cons]
    omega

theorem runLoopBody_config (envs : Nat → DispatchEnv) (st : PyState) :
    (runLoopBody envs st).method = st.method
    ∧ (runLoopBody envs st).payloads = st.payloads
    ∧ (runLoopBody envs st).total_requests = st.total_requests
    ∧ (runLoopBody envs st).loops = st.loops
    ∧ (runLoopBody envs st).completed_requests = st.completed_requests
        + (if pyUpper st.method == "POST" then st.payloads.length else 1) := by
  unfold runLoopBody
  by_cases h : (pyUpper st.method == "POST") = true
  · simp only [h, if_true]
    exact foldPayloads_config envs st.payloads st
  · simp only [h, if_false, Bool.false_eq_true]
    exact stepDispatch_config envs st []

theorem runIter_config (envs : Nat → DispatchEnv) (n : Nat) (st : PyState) :
    (((List.range n).foldl (fun s _ => runLoopBody envs s) st).method = st.method)
    ∧ (((List.range n).foldl (fun s _ => runLoopBody envs s) st).payloads = st.payloads)
    ∧ (((List.range n).foldl (fun s _ => runLoopBody envs s) st).total_requests
        = st.total_requests)
    ∧ (((List.range n).foldl (fun s _ => runLoopBody envs s) st).completed_requests
        = st.completed_requests
          + n * (if pyUpper st.method == "POST" then st.payloads.length else 1)) := by
  induction n with
  | zero => simp
  | succ n ih =>
    rw [List.range_succ, List.foldl_append, List.foldl_cons, List.foldl_nil]
    obtain ⟨h1, h2, h3, h4⟩ := ih
    obtain ⟨g1, g2, g3, g4, g5⟩ :=
      runLoopBody_config envs ((List.range n).foldl (fun s _ => runLoopBody envs s) st)
    refine ⟨g1.trans h1, g2.trans h2, g3.trans h3, ?_⟩
    rw [g5, h1, h2, h4, Nat.succ_mul]
    omega

theorem run_config (st : PyState) (envs : Nat → DispatchEnv) :
    (run st envs).method = st.method
    ∧ (run st envs).payloads = st.payloads
    ∧ (run st envs).total_requests = st.total_requests
    ∧ (run st envs).completed_requests = st.completed_requests
        + st.loops * (if pyUpper st.method == "POST" then st.payloads.length else 1) :=
  runIter_config envs st.loops st

theorem initPayloads_ne_nil (payloads : Option (List Payload)) :
    initPayloads payloads ≠ [] := by
  cases payloads with
  | none => simp [initPayloads]
  | some l =>
    dsimp [initPayloads]
    split
    · simp
    · next h => exact fun hnil => h (by simp [hnil])

theorem init_proj (method url : String) (headers : List (String × String))
    (payloadsOpt : Option (List Payload)) (params : Option Payload)
    (token : Option Token) (sOut : Bool) (oFile : String)
    (conds : Option (List Condition)) (slt : ℚ) (vSsl : Bool)
    (loops : Nat) (aLogs : Bool) :
    (Pyllow.init method url headers payloadsOpt params token sOut oFile
        conds slt vSsl loops aLogs).method = method
    ∧ (Pyllow.init method url headers payloadsOpt params token sOut oFile
        conds slt vSsl loops aLogs).payloads = initPayloads payloadsOpt
    ∧ (Pyllow.init method url headers payloadsOpt params token sOut oFile
        conds slt vSsl loops aLogs).completed_requests = 0
    ∧ (Pyllow.init method url headers payloadsOpt params token sOut oFile
        conds slt vSsl loops aLogs).loops = loops
    ∧ (Pyllow.init method url headers payloadsOpt params token sOut oFile
        conds slt vSsl loops aLogs).total_requests
      = (if pyUpper method == "POST" then (initPayloads payloadsOpt).length * loops
         else loops)
    ∧ (Pyllow.init method url headers payloadsOpt params token sOut oFile
        conds slt vSsl loops aLogs).token = token :=
  ⟨rfl, rfl, rfl, rfl, rfl, rfl⟩

/-- C5: at construction `total_requests` is the payload count times the
loop count for POST and the loop count otherwise, and `run` never changes
it. -/
theorem pyllow_C5 (method url : String) (headers : List (String × String))
    (ps : List Payload) (params : Option Payload) (token : Option Token)
    (sOut : Bool) (oFile : String) (conds : Option (List Condition))
    (slt : ℚ) (vSsl : Bool) (loops : Nat) (aLogs : Bool)
    (envs : Nat → DispatchEnv) (hps : ps ≠ []) (hl : 1 ≤ loops) :
    (pyUpper method = "POST" →
      (Pyllow.init method url headers (some ps) params token sOut oFile
          conds slt vSsl loops aLogs).total_requests = loops * ps.length)
    ∧ (pyUpper method ≠ "POST" →
      (Pyllow.init method url headers (some ps) params token sOut oFile
          conds slt vSsl loops aLogs).total_requests = loops)
    ∧ (run (Pyllow.init method url headers (some ps) params token sOut oFile
          conds slt vSsl loops aLogs) envs).total_requests
      = (Pyllow.init method url headers (some ps) params token sOut oFile
          conds slt vSsl loops aLogs).total_requests := by
  have hemp : ps.isEmpty = false := by
    cases ps with
    | nil => exact absurd rfl hps
    | cons a l => rfl
  have hip : initPayloads (some ps) = ps := by simp [initPayloads, hemp]
  obtain ⟨-, -, -, -, htot, -⟩ := init_proj method url headers (some ps) params token
    sOut oFile conds slt vSsl loops aLogs
  refine ⟨?_, ?_, (run_config _ envs).2.2.1⟩
  · intro hm
    rw [htot, hip, if_pos (by simp [hm]), Nat.mul_comm]
  · intro hm
    rw [htot, if_neg (by simpa using hm)]

/-- C6: with payloads `[pl1, pl2]` and two loops, a POST run performs
exactly four dispatches in the order pl1, pl2, pl1, pl2, and
`total_requests` is 4. -/
theorem pyllow_C6 :
    (run stPost2 envsAllOk).trace.map (fun e => e.data)
      = [some pl1, some pl2, some pl1, some pl2]
    ∧ stPost2.total_requests = 4
    ∧ (run stPost2 envsAllOk).completed_requests = 4 :=
  ⟨rfl, rfl, rfl⟩

theorem dispatchOne_transport_err (s : PyState) (p : Payload) (env : DispatchEnv)
    (h : env.first = .err) :
    (dispatchOne s p env).processed = s.processed
    ∧ (dispatchOne s p env).results = s.results
    ∧ (dispatchOne s p env).errorsLogged = s.errorsLogged + 1 := by
  obtain ⟨hs0, hA⟩ := applyAuthHeader_shape s
  unfold dispatchOne
  rw [hA, h]
  exact ⟨rfl, rfl, rfl⟩

theorem dispatchOne_refresh_err (s : PyState) (p : Payload) (env : DispatchEnv)
    (tok : Token) (r1 : Response)
    (htok : s.token = some tok) (h1 : env.first = .ok r1)
    (h401 : r1.status_code = 401)
    (href : (tok.refresh_access_token env.refresh).2 = .error ()) :
    (dispatchOne s p env).processed = s.processed
    ∧ (dispatchOne s p env).results = s.results
    ∧ (dispatchOne s p env).errorsLogged = s.errorsLogged + 1 := by
  obtain ⟨hs0, hA⟩ := applyAuthHeader_shape s
  unfold dispatchOne
  rw [hA, h1]
  dsimp only
  have hb : (r1.status_code == 401) = true := by simp [h401]
  rw [hb]
  simp only [if_true]
  simp only [htok]
  simp only [href]
  simp

theorem init_total_ne_zero (method url : String) (headers : List (String × String))
    (payloadsOpt : Option (List Payload)) (params : Option Payload)
    (token : Option Token) (sOut : Bool) (oFile : String)
    (conds : Option (List Condition)) (slt : ℚ) (vSsl : Bool)
    (loops : Nat) (aLogs : Bool) (hl : 1 ≤ loops) :
    (Pyllow.init method url headers payloadsOpt params token sOut oFile
      conds slt vSsl loops aLogs).total_requests ≠ 0 := by
  have hlen : 0 < (initPayloads payloadsOpt).length :=
    List.length_pos.mpr (initPayloads_ne_nil payloadsOpt)
  show (if pyUpper method == "POST"
    then (initPayloads payloadsOpt).length * loops else loops) ≠ 0
  cases hb : (pyUpper method == "POST")
  · simp only [hb, Bool.false_eq_true, if_false]
    omega
  · simp only [hb, if_true]
    exact Nat.mul_ne_zero (by omega) (by omega)

theorem run_completed_eq_total (st : PyState) (envs : Nat → DispatchEnv)
    (hc : st.completed_requests = 0)
    (ht : st.total_requests =
      (if pyUpper st.method == "POST" then st.payloads.length * st.loops
       else st.loops)) :
    (run st envs).completed_requests = st.total_requests := by
  obtain ⟨-, -, -, rc⟩ := run_config st envs
  rw [rc, hc, ht]
  cases hb : (pyUpper st.method == "POST") <;> simp [hb, Nat.mul_comm]

theorem progress_complete (s : PyState)
    (h : s.completed_requests = s.total_requests)
    (hne : s.total_requests ≠ 0) : progress s = 100 := by
  unfold progress
  rw [h, div_self (by exact_mod_cast hne)]
  norm_num

/-- C9: exceptions at the dispatch boundary are swallowed: the run always
completes with `completed_requests = total_requests` under every transport
behaviour, progress ends at 100%, and a failed dispatch (transport error,
or 401 followed by a failing refresh) records no response or result while
still logging an error. -/
theorem pyllow_C9 (method url : String) (headers : List (String × String))
    (payloadsOpt : Option (List Payload)) (params : Option Payload)
    (token : Option Token) (sOut : Bool) (oFile : String)
    (conds : Option (List Condition)) (slt : ℚ) (vSsl : Bool)
    (loops : Nat) (aLogs : Bool) (envs : Nat → DispatchEnv)
    (hl : 1 ≤ loops) :
    ((run (Pyllow.init method url headers payloadsOpt params token sOut oFile
        conds slt vSsl loops aLogs) envs).completed_requests
      = (Pyllow.init method url headers payloadsOpt params token sOut oFile
        conds slt vSsl loops aLogs).total_requests)
    ∧ (Pyllow.init method url headers payloadsOpt params token sOut oFile
        conds slt vSsl loops aLogs).total_requests ≠ 0
    ∧ progress (run (Pyllow.init method url headers payloadsOpt params token
        sOut oFile conds slt vSsl loops aLogs) envs) = 100
    ∧ (∀ (s : PyState) (p : Payload) (env : DispatchEnv), env.first = .err →
        (dispatchOne s p env).processed = s.processed
        ∧ (dispatchOne s p env).results = s.results
        ∧ (dispatchOne s p env).errorsLogged = s.errorsLogged + 1)
    ∧ (∀ (s : PyState) (p : Payload) (env : DispatchEnv) (tok : Token)
        (r1 : Response), s.token = some tok → env.first = .ok r1 →
        r1.status_code = 401 →
        (tok.refresh_access_token env.refresh).2 = .error () →
        (dispatchOne s p env).processed = s.processed
        ∧ (dispatchOne s p env).results = s.results
        ∧ (dispatchOne s p env).errorsLogged = s.errorsLogged + 1) := by
  have hcomp : (run (Pyllow.init method url headers payloadsOpt params token
      sOut oFile conds slt vSsl loops aLogs) envs).completed_requests
      = (Pyllow.init method url headers payloadsOpt params token sOut oFile
        conds slt vSsl loops aLogs).total_requests :=
    run_completed_eq_total _ envs rfl rfl
  have hne : (Pyllow.init method url headers payloadsOpt params token sOut
      oFile conds slt vSsl loops aLogs).total_requests ≠ 0 :=
    init_total_ne_zero method url headers payloadsOpt params token sOut oFile
      conds slt vSsl loops aLogs hl
  refine ⟨hcomp, hne, ?_, dispatchOne_transport_err, ?_⟩
  · obtain ⟨-, -, rt, -⟩ := run_config (Pyllow.init method url headers
      payloadsOpt params token sOut oFile conds slt vSsl loops aLogs) envs
    exact progress_complete _ (hcomp.trans rt.symm) (by rw [rt]; exact hne)
  · intro s p env tok r1 htok h1 h401 href
    exact dispatchOne_refresh_err s p env tok r1 htok h1 h401 href

theorem applyAuthHeader_noToken (s : PyState) (h : s.token = none) :
    applyAuthHeader s = s := by
  unfold applyAuthHeader
  rw [h]

theorem dispatchOne_noToken (s : PyState) (p : Payload) (env : DispatchEnv)
    (h : s.token = none) :
    (dispatchOne s p env).trace = s.trace ++ [mkEvent s p]
    ∧ (dispatchOne s p env).token = none
    ∧ (dispatchOne s p env).method = s.method
    ∧ (dispatchOne s p env).payloads = s.payloads := by
  unfold dispatchOne
  rw [applyAuthHeader_noToken s h]
  cases env.first with
  | err => exact ⟨rfl, h, rfl, rfl⟩
  | ok resp =>
    dsimp only
    split
    · simp only [h]
      rw [process_response_eq]
      exact ⟨rfl, rfl, rfl, rfl⟩
    · rw [process_response_eq]
      exact ⟨rfl, h, rfl, rfl⟩

theorem foldPayloads_trace_noToken (envs : Nat → DispatchEnv)
    (ps : List Payload) (s : PyState)
    (h : s.token = none) (hm : (pyUpper s.method == "POST") = true) :
    ((ps.foldl (stepDispatch envs) s).trace.map (fun e => e.data)
      = s.trace.map (fun e => e.data) ++ ps.map (fun p => (some p : Option Payload)))
    ∧ (ps.foldl (stepDispatch envs) s).token = none
    ∧ (ps.foldl (stepDispatch envs) s).method = s.method
    ∧ (ps.foldl (stepDispatch envs) s).payloads = s.payloads := by
  induction ps generalizing s with
  | nil => exact ⟨by simp, h, rfl, rfl⟩
  | cons p ps ih =>
    simp only [List.foldl_cons]
    obtain ⟨d1, d2, d3, d4⟩ := dispatchOne_noToken s p (envs s.completed_requests) h
    have hstep_trace : (stepDispatch envs s p).trace = s.trace ++ [mkEvent s p] := d1
    have hstep_token : (stepDispatch envs s p).token = none := d2
    have hstep_m : (stepDispatch envs s p).method = s.method := d3
    have hstep_p : (stepDispatch envs s p).payloads = s.payloads := d4
    obtain ⟨i1, i2, i3, i4⟩ := ih (stepDispatch envs s p) hstep_token
      (by rw [hstep_m]; exact hm)
    refine ⟨?_, i2, i3.trans hstep_m, i4.trans hstep_p⟩
    rw [i1, hstep_trace]
    simp [mkEvent, hm]

theorem runIter_trace_noToken (envs : Nat → DispatchEnv) (n : Nat) (s : PyState)
    (h : s.token = none) (hm : (pyUpper s.method == "POST") = true)
    (hp : s.payloads = [[]]) :
    (((List.range n).foldl (fun x _ => runLoopBody envs x) s).trace.map
        (fun e => e.data)
      = s.trace.map (fun e => e.data) ++ List.replicate n (some ([] : Payload)))
    ∧ ((List.range n).foldl (fun x _ => runLoopBody envs x) s).token = none := by
  induction n with
  | zero => exact ⟨by simp, h⟩
  | succ n ih =>
    rw [List.range_succ, List.foldl_append, List.foldl_cons, List.foldl_nil]
    obtain ⟨i1, i2⟩ := ih
    obtain ⟨c1, c2, -, -⟩ := runIter_config envs n s
    generalize hP : (List.range n).foldl (fun x _ => runLoopBody envs x) s = P at i1 i2 c1 c2 ⊢
    have hm' : (pyUpper P.method == "POST") = true := by rw [c1]; exact hm
    have hb : runLoopBody envs P = P.payloads.foldl (stepDispatch envs) P := by
      unfold runLoopBody
      rw [hm']
      exact if_pos rfl
    rw [hb]
    obtain ⟨f1, f2, -, -⟩ := foldPayloads_trace_noToken envs P.payloads P i2 hm'
    refine ⟨?_, f2⟩
    rw [f1, i1, c2, hp]
    simp [List.replicate_succ']

/-- C10: with loops at least 1 the internal payload list is never empty
(a missing or empty payloads argument becomes a single empty payload), so
`total_requests` is nonzero and the progress division is never by zero;
for POST with no payloads supplied, exactly one empty-bodied request is
dispatched per loop. -/
theorem pyllow_C10 (method url : String) (headers : List (String × String))
    (payloadsOpt : Option (List Payload)) (params : Option Payload)
    (token : Option Token) (sOut : Bool) (oFile : String)
    (conds : Option (List Condition)) (slt : ℚ) (vSsl : Bool)
    (loops : Nat) (aLogs : Bool) (envs : Nat → DispatchEnv)
    (hl : 1 ≤ loops) :
    ((Pyllow.init method url headers payloadsOpt params token sOut oFile
        conds slt vSsl loops aLogs).payloads ≠ []
     ∧ (Pyllow.init method url headers payloadsOpt params token sOut oFile
        conds slt vSsl loops aLogs).total_requests ≠ 0)
    ∧ ((payloadsOpt = none ∨ payloadsOpt = some []) →
        (Pyllow.init method url headers payloadsOpt params token sOut oFile
          conds slt vSsl loops aLogs).payloads = [[]])
    ∧ ((run (Pyllow.init "POST" url headers none params none sOut oFile
          conds slt vSsl loops aLogs) envs).trace.map (fun e => e.data)
        = List.replicate loops (some ([] : Payload))) := by
  refine ⟨⟨initPayloads_ne_nil payloadsOpt,
    init_total_ne_zero method url headers payloadsOpt params token sOut oFile
      conds slt vSsl loops aLogs hl⟩, ?_, ?_⟩
  · intro h
    rcases h with h | h <;> subst h <;> rfl
  · exact (runIter_trace_noToken envs loops
      (Pyllow.init "POST" url headers none params none sOut oFile conds slt
        vSsl loops aLogs) rfl rfl rfl).1

/-- C5 witness: the POST scenario with two payloads and two loops has
`total_requests` four, preserved by `run`. -/
theorem pyllow_C5_witness :
    ([pl1, pl2] : List Payload) ≠ [] ∧ (1 : Nat) ≤ 2
    ∧ (pyUpper "POST" = "POST" → stPost2.total_requests = 2 * 2)
    ∧ (pyUpper "POST" ≠ "POST" → stPost2.total_requests = 2)
    ∧ (run stPost2 envsAllOk).total_requests = stPost2.total_requests := by
  have h := pyllow_C5 "POST" "http://u" [] [pl1, pl2] none none false
    "output.txt" none 0 true 2 false envsAllOk (List.cons_ne_nil pl1 [pl2])
    (by omega)
  exact ⟨List.cons_ne_nil pl1 [pl2], by omega, h.1, h.2.1, h.2.2⟩

/-- C9 witness: a two-loop POST run in which every transport call fails
still completes with progress 100%. -/
theorem pyllow_C9_witness :
    (1 : Nat) ≤ 2
    ∧ (run stFailRun envsAllFail).completed_requests = stFailRun.total_requests
    ∧ stFailRun.total_requests ≠ 0
    ∧ progress (run stFailRun envsAllFail) = 100 := by
  have h := pyllow_C9 "POST" "http://u" [] (some [pl1]) none none false
    "output.txt" none 0 true 2 false envsAllFail (by omega)
  exact ⟨by omega, h.1, h.2.1, h.2.2.1⟩

/-- C10 witness: three loops, no payloads, no token, all transport calls
failing: the payload list is the singleton empty payload and the run
dispatches exactly one empty-bodied request per loop. -/
theorem pyllow_C10_witness :
    (1 : Nat) ≤ 3
    ∧ (stNoPayloads.payloads ≠ [] ∧ stNoPayloads.total_requests ≠ 0)
    ∧ stNoPayloads.payloads = [[]]
    ∧ (run stNoPayloads envsAllFail).trace.map (fun e => e.data)
      = List.replicate 3 (some ([] : Payload)) := by
  have h := pyllow_C10 "POST" "http://u" [] none none none false
    "output.txt" none 0 true 3 false envsAllFail (by omega)
  exact ⟨by omega, h.1, h.2.1 (Or.inl rfl), h.2.2⟩

theorem getHeader_setHeader (hs : List (String × String)) (k v : String) :
    getHeader (setHeader hs k v) k = some v := by
  induction hs with
  | nil => simp [setHeader, getHeader]
  | cons head t ih =>
    obtain ⟨k', v'⟩ := head
    by_cases hk : (k' == k) = true
    · simp [setHeader, hk, getHeader]
    · simp [setHeader, hk, getHeader, ih]

/-- C7: a condition matches a response exactly when the status-code clause
and the message clause both hold, an empty or absent clause imposing no
constraint; on a match the response body is appended to that condition's
collected bodies. -/
theorem pyllow_C7 :
    (∀ (c : Condition) (status : Nat) (content : String),
      conditionMatches c status content = true ↔
        ((∀ scs, c.status_codes = some scs → scs ≠ [] → status ∈ scs)
         ∧ (∀ ms, c.messages = some ms → ms ≠ [] →
             ∃ m ∈ ms, strContainsSub content m = true)))
    ∧ (∀ (st : PyState) (resp : Response),
        (process_response st resp).condition_results
          = st.condition_results.map (fun cr =>
              if conditionMatches cr.condition resp.status_code resp.text then
                { cr with results := cr.results ++ [resp.text] }
              else cr)) := by
  constructor
  · intro c status content
    unfold conditionMatches
    rw [Bool.and_eq_true]
    have hsc : (match c.status_codes with
        | some scs => scs.isEmpty || scs.contains status
        | none => true) = true ↔
        (∀ scs, c.status_codes = some scs → scs ≠ [] → status ∈ scs) := by
      cases c.status_codes with
      | none => simp
      | some scs => simp [List.isEmpty_iff, or_iff_not_imp_left]
    have hms : (match c.messages with
        | some ms => ms.isEmpty || ms.any (fun m => strContainsSub content m)
        | none => true) = true ↔
        (∀ ms, c.messages = some ms → ms ≠ [] →
          ∃ m ∈ ms, strContainsSub content m = true) := by
      cases c.messages with
      | none => simp
      | some ms => simp [List.isEmpty_iff, List.any_eq_true, or_iff_not_imp_left]
    rw [hsc, hms]
  · intro st resp
    rw [process_response_eq]

/-- C7 witness: the condition requiring status 200 and substring "ok"
matches a 200 response with body containing "ok" and rejects a 200
response with body "fail". -/
theorem pyllow_C7_witness :
    conditionMatches condOk 200 "it is ok" = true
    ∧ conditionMatches condOk 200 "fail" = false := by
  constructor
  · refine (pyllow_C7.1 condOk 200 "it is ok").mpr ⟨?_, ?_⟩
    · intro scs h hne
      simp only [condOk] at h
      injection h with h
      subst h
      simp
    · intro ms h hne
      simp only [condOk] at h
      injection h with h
      subst h
      exact ⟨"ok", by simp, rfl⟩
  · rfl

/-- C1: on a first response of 401 with a token present whose refresh
succeeds, exactly one retry of the identical request is issued with the
Authorization header updated to the refreshed access token, and the second
response — whatever its status, including another 401 — is the one
processed; no further transport calls occur. -/
theorem pyllow_C1 (st : PyState) (p : Payload) (env : DispatchEnv)
    (tok tok' : Token) (a : Option String) (r1 r2 : Response)
    (htok : st.token = some tok)
    (h1 : env.first = .ok r1) (h401 : r1.status_code = 401)
    (href : tok.refresh_access_token env.refresh = (tok', .ok a))
    (h2 : env.second = .ok r2) :
    (dispatchOne st p env).trace
      = st.trace ++
        [mkEvent (applyAuthHeader st) p,
         { mkEvent (applyAuthHeader st) p with
             headers := setHeader (applyAuthHeader st).headers "Authorization"
               ("Bearer " ++ pyStr tok'.access_token) }]
    ∧ (dispatchOne st p env).processed = st.processed ++ [r2]
    ∧ getHeader (setHeader (applyAuthHeader st).headers "Authorization"
          ("Bearer " ++ pyStr tok'.access_token)) "Authorization"
        = some ("Bearer " ++ pyStr tok'.access_token)
    ∧ (dispatchOne st p env).token = some tok' := by
  obtain ⟨hs0, hA⟩ := applyAuthHeader_shape st
  unfold dispatchOne
  rw [hA, h1]
  dsimp only
  have hb : (r1.status_code == 401) = true := by simp [h401]
  rw [hb]
  simp only [if_true]
  simp only [htok]
  simp only [href]
  rw [h2]
  dsimp only
  rw [process_response_eq]
  refine ⟨?_, ?_, getHeader_setHeader _ _ _, ?_⟩
  · simp [mkEvent]
  · rfl
  · rfl


/-- C1 witness: the concrete 401 scenario retries exactly once with the
refreshed bearer header and processes the second 401 response. -/
theorem pyllow_C1_witness :
    st401.token = some tokFresh
    ∧ env401.first = .ok ⟨401, "unauthorized"⟩
    ∧ (⟨401, "unauthorized"⟩ : Response).status_code = 401
    ∧ tokFresh.refresh_access_token env401.refresh
        = (tokRefreshed, .ok (some "newtok"))
    ∧ env401.second = .ok ⟨401, "again"⟩
    ∧ ((dispatchOne st401 [] env401).trace
        = st401.trace ++
          [mkEvent (applyAuthHeader st401) [],
           { mkEvent (applyAuthHeader st401) [] with
               headers := setHeader (applyAuthHeader st401).headers
                 "Authorization" ("Bearer " ++ pyStr tokRefreshed.access_token) }]
      ∧ (dispatchOne st401 [] env401).processed
          = st401.processed ++ [⟨401, "again"⟩]
      ∧ getHeader (setHeader (applyAuthHeader st401).headers "Authorization"
            ("Bearer " ++ pyStr tokRefreshed.access_token)) "Authorization"
          = some ("Bearer " ++ pyStr tokRefreshed.access_token)
      ∧ (dispatchOne st401 [] env401).token = some tokRefreshed) :=
  ⟨rfl, rfl, rfl, rfl, rfl,
   pyllow_C1 st401 [] env401 tokFresh tokRefreshed (some "newtok")
     ⟨401, "unauthorized"⟩ ⟨401, "again"⟩ rfl rfl rfl rfl rfl⟩
